import Mathlib

/-!
Verification of the TorchServe worker-manager control plane
(`ts/model_service_worker_manager.py`): a shallow embedding of the
command dispatcher (`load_model`, `scale_up`, `scale_down`), the
readiness-polling loop, and one iteration of the connection loop
(`handle_connection`), together with theorems settling the spec claims.

Conventions of the embedding:
* Python byte-string payload values are modelled as Lean `String`s
  (UTF-8 decoding is the identity on the values the claims touch).
* A decoded request payload is an association list `Req` from field
  names to values; `req[k]` is `pyGet` (raising `KeyError` when the
  key is absent) and `k in req` is `hasKey`, exactly as in the source.
* Python exceptions are the inductive `PyErr`; fallible code runs in
  `Except PyErr`.  Each operation is split into a `…_body` (the `try`
  block) and a wrapper that mirrors the source's `except` clauses.
* Process-level effects are made explicit in `MgrState`: `workers` is
  the manager's `self.workers` dict, `spawned`/`terminated` record the
  pids handed to `mp.Process(...).start()` and `worker.terminate()`,
  and `nextPid` is a fresh-pid counter.
* The contents of the two synchronization files are a function of the
  polling attempt index (`outC errC : Nat → String`), since the worker
  subprocess appends to them between reads.
-/

/-- Python exceptions that the worker-manager code can raise. -/
inductive PyErr where
  | keyError : String → PyErr
  | valueError : String → PyErr
  | memoryError : PyErr
  | runtimeError : String → PyErr
  | exn : String → PyErr
  deriving DecidableEq, Repr

/-- A decoded command payload: a mapping from field names to raw
byte-string values, as produced by `retrieve_msg`. -/
abbrev Req := List (String × String)

/-- `req[k]` on a Python dict: raises `KeyError` when absent. -/
def pyGet (req : Req) (k : String) : Except PyErr String :=
  match List.lookup k req with
  | some v => .ok v
  | none => .error (.keyError k)

/-- `k in req` on a Python dict. -/
def hasKey (req : Req) (k : String) : Bool :=
  (List.lookup k req).isSome

/-- Python `int(...)` applied to a raw field value. -/
def pyInt (s : String) : Except PyErr Int :=
  match s.toInt? with
  | some n => .ok n
  | none => .error (.valueError s)

/-- The manifest carried by a loaded service descriptor; `model` is the
key set of `manifest['model']` (`none` when the `'model'` key is
absent, so that accessing it raises `KeyError`). -/
structure Manifest where
  model : Option (List String)
  deriving DecidableEq, Repr

/-- `service.context` of the model-loading collaborator: `manifest` is
`none` when `service.context.manifest` is falsy. -/
structure Ctx where
  manifest : Option Manifest
  deriving DecidableEq, Repr

/-- A service descriptor returned by the model-loading collaborator. -/
structure Service where
  context : Ctx
  deriving DecidableEq, Repr

/-- The model-loading collaborator
`model_loader.load(model_name, model_dir, handler, gpu, batch_size, init_service)`. -/
abbrev LoadFn : Type :=
  String → String → Option String → Option Int → Option Int → Bool →
    Except PyErr Service

/-- The deferred construction parameters
`(model_name, model_dir, handler, gpu, batch_size)`. -/
abbrev ServiceArgsT : Type :=
  String × String × Option String × Option Int × Option Int

/-- The quadruple returned by `load_model`. -/
abbrev LoadResult : Type := Option Service × Option ServiceArgsT × String × Nat

/-- `batch_size = None; if k in req: batch_size = int(req[k])` — the
pattern used for the optional `batchSize` and `gpu` fields. -/
def getOptInt (req : Req) (k : String) : Except PyErr (Option Int) :=
  if hasKey req k then do
    let v ← pyGet req k
    let n ← pyInt v
    pure (some n)
  else
    pure none

/-- `is_eager = False; if service.context.manifest: is_eager =
'modelFile' in service.context.manifest['model']`. -/
def computeIsEager (svc : Service) : Except PyErr Bool :=
  match svc.context.manifest with
  | none => .ok false
  | some m =>
    match m.model with
    | none => .error (.keyError "model")
    | some keys => .ok (keys.contains "modelFile")

/-- The `try` block of `TorchModelServiceWorkerManager.load_model`. -/
def load_model_try (loader : LoadFn) (req : Req) : Except PyErr LoadResult := do
  let model_dir ← pyGet req "modelPath"
  let model_name ← pyGet req "modelName"
  let handlerRaw ← pyGet req "handler"
  let handler := if handlerRaw ≠ "" then some handlerRaw else none
  let batch_size ← getOptInt req "batchSize"
  let gpu ← getOptInt req "gpu"
  let service ← loader model_name model_dir handler gpu batch_size false
  let is_eager ← computeIsEager service
  if is_eager then do
    let service2 ← loader model_name model_dir handler gpu batch_size true
    pure (some service2, none, "loaded model " ++ model_name, 200)
  else
    pure (none, some (model_name, model_dir, handler, gpu, batch_size),
      "loaded model " ++ model_name, 200)

/-- `load_model`: the `try` block guarded by `except MemoryError`,
which alone is converted to `(None, None, "System out of memory", 507)`;
every other exception propagates. -/
def load_model (loader : LoadFn) (req : Req) : Except PyErr LoadResult :=
  match load_model_try loader req with
  | .error .memoryError => .ok (none, none, "System out of memory", 507)
  | r => r

/-- One entry of `self.workers`: the spawned process handle (as a pid)
and the synchronization-file base path. -/
structure WorkerRecord where
  worker : Nat
  fifo : String
  deriving DecidableEq, Repr

/-- Python dict assignment `d[k] = v`: overwrite in place if the key is
present, append otherwise. -/
def dictSet (ws : List (String × WorkerRecord)) (k : String)
    (v : WorkerRecord) : List (String × WorkerRecord) :=
  if (List.lookup k ws).isSome then
    ws.map (fun p => if p.1 = k then (k, v) else p)
  else
    ws ++ [(k, v)]

/-- The manager's process-level state: the Worker Record Store
(`self.workers`), a fresh-pid counter, and the sets of pids that have
been started and that have received a terminate request. -/
structure MgrState where
  workers : List (String × WorkerRecord)
  nextPid : Nat
  spawned : List Nat
  terminated : List Nat
  deriving DecidableEq, Repr

/-- Readiness sentinel string searched for in the synchronization
files. -/
def sentinel : String := "Torch worker started."

/-- Python substring containment `needle in hay`, computed over the
underlying character lists. -/
def strContains (hay needle : String) : Bool :=
  hay.data.tails.any fun t => needle.data.isPrefixOf t

/-- `"Torch worker started." in f.read()` — the readiness check. -/
def hasSentinel (hay : String) : Bool :=
  strContains hay sentinel

/-- The polling loop of `scale_up`: starting at `attempt`, with `retry`
budget left, read the `.out` then the `.err` file, break on the
sentinel, else decrement.  Returns the final value of `retry` together
with the number of attempts performed. -/
def probeLoop (outC errC : Nat → String) (attempt : Nat) :
    Nat → Nat × Nat
  | 0 => (0, 0)
  | r + 1 =>
    if hasSentinel (outC attempt) then (r + 1, 1)
    else if hasSentinel (errC attempt) then (r + 1, 1)
    else
      let rest := probeLoop outC errC (attempt + 1) r
      (rest.1, rest.2 + 1)

/-- Decoding of the five required Scale Up fields (lines 116–120 of the
source); a missing field raises `KeyError`. -/
def decodeScaleUp (req : Req) :
    Except PyErr (String × String × String × String × String) := do
  let sock_name ← pyGet req "sock_name"
  let sock_type ← pyGet req "sock_type"
  let host ← pyGet req "host"
  let port ← pyGet req "port"
  let fifo_path ← pyGet req "fifo_path"
  pure (sock_name, sock_type, host, port, fifo_path)

/-- The `try` block of `scale_up`: decode the request, spawn the worker
process, register the `WorkerRecord` under the socket name (falling
back to the port when the socket name is falsy), run the readiness
polling loop, and raise `Exception("Worker not spawned")` when the
retry budget is exhausted. -/
def scale_up_body (outC errC : Nat → String) (req : Req) (s : MgrState) :
    MgrState × Except PyErr (String × Nat) :=
  match decodeScaleUp req with
  | .error e => (s, .error e)
  | .ok (sock_name, _sock_type, _host, port, fifo_path) =>
    let pid := s.nextPid
    let s1 : MgrState :=
      { s with nextPid := s.nextPid + 1, spawned := s.spawned ++ [pid] }
    let worker_id := if sock_name ≠ "" then sock_name else port
    let s2 : MgrState :=
      { s1 with workers := dictSet s1.workers worker_id ⟨pid, fifo_path⟩ }
    let retryLeft := (probeLoop outC errC 0 10).1
    if retryLeft = 0 then (s2, .error (.exn "Worker not spawned"))
    else (s2, .ok ("scaled up", 200))

/-- `scale_up`: the `try` block guarded by a bare `except` that logs
and returns `("scale up failed", 500)`.  State mutations performed
before the exception persist. -/
def scale_up (outC errC : Nat → String) (req : Req) (s : MgrState) :
    MgrState × (String × Nat) :=
  match scale_up_body outC errC req s with
  | (s', .ok r) => (s', r)
  | (s', .error _) => (s', ("scale up failed", 500))

/-- The `try` block of `scale_down`: decode the worker id, look it up
in the Worker Record Store (raising `KeyError` when absent), request
termination of the owned process handle, and return
`("scaled down", 200)`.  The record is not removed from the store. -/
def scale_down_body (req : Req) (s : MgrState) :
    MgrState × Except PyErr (String × Nat) :=
  match pyGet req "port" with
  | .error e => (s, .error e)
  | .ok port =>
    match List.lookup port s.workers with
    | none => (s, .error (.keyError port))
    | some rec =>
      let _fifo_path := rec.fifo
      ({ s with terminated := s.terminated ++ [rec.worker] },
        .ok ("scaled down", 200))

/-- `scale_down`: the bare `except` clause logs and then `raise`s, so
every exception of the body propagates to the caller (the
`return "scale down failed", 500` after the `raise` is dead code). -/
def scale_down (req : Req) (s : MgrState) :
    MgrState × Except PyErr (String × Nat) :=
  match scale_down_body req s with
  | (s', .ok r) => (s', .ok r)
  | (s', .error e) => (s', .error e)

/-- Connection-local state of `handle_connection`: the `service` and
`service_args` variables and the manager state. -/
structure ConnState where
  service : Option Service
  serviceArgs : Option ServiceArgsT
  mgr : MgrState
  deriving DecidableEq, Repr

/-- The observable outcome of one iteration of the connection loop:
either a response `(code, message)` was encoded and sent (possibly
followed by a `RuntimeError` when the code is not 200), or an
exception was raised before any response was sent, or — in benchmark
mode — the message was skipped entirely. -/
inductive Outcome where
  | response : Nat → String → Option PyErr → Outcome
  | raised : PyErr → Outcome
  | skipped : Outcome
  deriving DecidableEq, Repr

/-- One iteration of the `while True` loop of `handle_connection`,
after `cmd, msg = retrieve_msg(cl_socket)`: the `if BENCHMARK / elif
cmd == b'L' / elif b'U' / elif b'D' / else` chain.  When `benchmark`
is set the whole dispatch chain is skipped; the `D` branch overwrites
the result of `scale_down` with `code, result = 200, 'DONE'` before
encoding. -/
def handleStep (loader : LoadFn) (outC errC : Nat → String)
    (benchmark : Bool) (cmd : String) (msg : Req) (st : ConnState) :
    ConnState × Outcome :=
  if benchmark then (st, .skipped)
  else if cmd = "L" then
    match load_model loader msg with
    | .error e => (st, .raised e)
    | .ok (svc, args, result, code) =>
      ({ st with service := svc, serviceArgs := args },
        .response code result
          (if code ≠ 200 then
            some (.runtimeError (toString code ++ " - " ++ result))
          else none))
  else if cmd = "U" then
    let r := scale_up outC errC msg st.mgr
    ({ st with mgr := r.1 },
      .response r.2.2 r.2.1
        (if r.2.2 ≠ 200 then
          some (.runtimeError (toString r.2.2 ++ " - " ++ r.2.1))
        else none))
  else if cmd = "D" then
    match scale_down msg st.mgr with
    | (m', .error e) => ({ st with mgr := m' }, .raised e)
    | (m', .ok _rc) =>
      let code := 200
      let result := "DONE"
      ({ st with mgr := m' },
        .response code result
          (if code ≠ 200 then
            some (.runtimeError (toString code ++ " - " ++ result))
          else none))
  else
    (st, .raised (.valueError ("Received unknown command: " ++ cmd)))

/-! ### Concrete fixtures used by witnesses and counterexamples -/

/-- A loader that is never reached by the code paths under test. -/
def noLoader : LoadFn := fun _ _ _ _ _ _ => .error (.exn "loader unused")

/-- A loader whose first call raises a generic (non-memory) error. -/
def boomLoader : LoadFn := fun _ _ _ _ _ _ => .error (.exn "boom")

/-- A loader that runs out of memory. -/
def oomLoader : LoadFn := fun _ _ _ _ _ _ => .error .memoryError

/-- A loader returning an eager descriptor (manifest declares
`modelFile`). -/
def eagerLoader : LoadFn :=
  fun _ _ _ _ _ _ => .ok ⟨⟨some ⟨some ["modelFile"]⟩⟩⟩

/-- A loader returning a scripted descriptor (falsy manifest). -/
def scriptedLoader : LoadFn := fun _ _ _ _ _ _ => .ok ⟨⟨none⟩⟩

/-- Synchronization-file contents that never show the sentinel. -/
def quietC : Nat → String := fun _ => ""

/-- Synchronization-file contents that show the sentinel immediately. -/
def readyC : Nat → String := fun _ => "Torch worker started.\n"

/-- A manager state with no registered workers. -/
def emptyMgr : MgrState := ⟨[], 0, [], []⟩

/-- A manager state holding one worker registered under id `"9000"`. -/
def mgr9000 : MgrState := ⟨[("9000", ⟨5, "/tmp/f"⟩)], 6, [5], []⟩

/-- A connection state over `mgr9000`. -/
def conn9000 : ConnState := ⟨none, none, mgr9000⟩

/-- A syntactically complete Scale Up request. -/
def upReq : Req :=
  [("sock_name", ""), ("sock_type", "tcp"), ("host", "127.0.0.1"),
   ("port", "9000"), ("fifo_path", "/tmp/fifo")]

/-- A complete Load request (empty handler, no gpu, no batch size). -/
def loadReq : Req :=
  [("modelPath", "/models/m"), ("modelName", "mnist"), ("handler", "")]

/-! ### Helper lemmas about dictionary lookup and the polling loop -/

lemma lookup_append_single_of_none {k : String}
    {ws : List (String × WorkerRecord)} (h : List.lookup k ws = none)
    (v : WorkerRecord) : List.lookup k (ws ++ [(k, v)]) = some v := by
  induction ws with
  | nil => simp [List.lookup]
  | cons p t ih =>
    obtain ⟨a, b⟩ := p
    cases hk : (k == a) with
    | true => simp [List.lookup, hk] at h
    | false =>
      simp only [List.cons_append, List.lookup, hk] at h ⊢
      exact ih h

lemma lookup_map_overwrite {k : String}
    {ws : List (String × WorkerRecord)} (h : (List.lookup k ws).isSome)
    (v : WorkerRecord) :
    List.lookup k (ws.map fun p => if p.1 = k then (k, v) else p) = some v := by
  induction ws with
  | nil => simp [List.lookup] at h
  | cons p t ih =>
    obtain ⟨a, b⟩ := p
    by_cases ha : a = k
    · subst ha
      have hmap : ((a, b) :: t).map (fun p => if p.1 = a then (a, v) else p)
          = (a, v) :: t.map (fun p => if p.1 = a then (a, v) else p) := by
        simp
      rw [hmap]
      simp [List.lookup]
    · have hk : (k == a) = false := by
        simp only [beq_eq_false_iff_ne, ne_eq]
        exact fun hkk => ha hkk.symm
      have hmap : ((a, b) :: t).map (fun p => if p.1 = k then (k, v) else p)
          = (a, b) :: t.map (fun p => if p.1 = k then (k, v) else p) := by
        simp [ha]
      rw [hmap]
      simp only [List.lookup, hk] at h
      simp only [List.lookup, hk]
      exact ih h

lemma lookup_dictSet_self (ws : List (String × WorkerRecord)) (k : String)
    (v : WorkerRecord) : List.lookup k (dictSet ws k v) = some v := by
  unfold dictSet
  by_cases h : (List.lookup k ws).isSome
  · rw [if_pos h]
    exact lookup_map_overwrite h v
  · rw [if_neg h]
    exact lookup_append_single_of_none (Option.not_isSome_iff_eq_none.mp h) v

lemma probeLoop_attempts_le (outC errC : Nat → String) :
    ∀ (r a : Nat), (probeLoop outC errC a r).2 ≤ r := by
  intro r
  induction r with
  | zero => intro a; simp [probeLoop]
  | succ r ih =>
    intro a
    simp only [probeLoop]
    by_cases h1 : hasSentinel (outC a)
    · simp [h1]
    · by_cases h2 : hasSentinel (errC a)
      · simp [h1, h2]
      · simp only [h1, h2, Bool.false_eq_true, if_false]
        have := ih (a + 1)
        omega

lemma probeLoop_all_fail (outC errC : Nat → String) :
    ∀ (r a : Nat),
      (∀ i, i < r → hasSentinel (outC (a + i)) = false ∧
        hasSentinel (errC (a + i)) = false) →
      probeLoop outC errC a r = (0, r) := by
  intro r
  induction r with
  | zero => intro a _; simp [probeLoop]
  | succ r ih =>
    intro a h
    have h0 := h 0 (Nat.succ_pos r)
    simp only [Nat.add_zero] at h0
    simp only [probeLoop, h0.1, h0.2, Bool.false_eq_true, if_false]
    have hrec : probeLoop outC errC (a + 1) r = (0, r) := by
      apply ih
      intro i hi
      have := h (i + 1) (by omega)
      rwa [show a + (i + 1) = a + 1 + i by omega] at this
    rw [hrec]

lemma probeLoop_first_hit (outC errC : Nat → String) :
    ∀ (r j a : Nat), j < r →
      (hasSentinel (outC (a + j)) = true ∨
        hasSentinel (errC (a + j)) = true) →
      (∀ i, i < j → hasSentinel (outC (a + i)) = false ∧
        hasSentinel (errC (a + i)) = false) →
      (probeLoop outC errC a r).1 ≠ 0 ∧
        (probeLoop outC errC a r).2 = j + 1 := by
  intro r
  induction r with
  | zero => intro j a hj; omega
  | succ r ih =>
    intro j a hj hhit hbefore
    cases j with
    | zero =>
      simp only [Nat.add_zero] at hhit
      by_cases h1 : hasSentinel (outC a)
      · simp [probeLoop, h1]
      · have h2 : hasSentinel (errC a) = true := by
          rcases hhit with h | h
          · exact absurd h h1
          · exact h
        simp [probeLoop, h1, h2]
    | succ j' =>
      have h0 := hbefore 0 (Nat.succ_pos j')
      simp only [Nat.add_zero] at h0
      simp only [probeLoop, h0.1, h0.2, Bool.false_eq_true, if_false]
      have hrec := ih j' (a + 1) (by omega)
        (by rwa [show a + 1 + j' = a + (j' + 1) by omega])
        (by
          intro i hi
          have := hbefore (i + 1) (by omega)
          rwa [show a + (i + 1) = a + 1 + i by omega] at this)
      exact ⟨hrec.1, by omega⟩

/-- A connection state over the empty manager state. -/
def connEmpty : ConnState := ⟨none, none, emptyMgr⟩

/-! ### Claims -/

/-- Claim C1: the code contradicts this claim.  A Scale Down naming an
identifier never registered in the Worker Record Store does leave the
store unchanged, but instead of yielding a failure result the
operation re-raises the `KeyError` (the `return "scale down failed",
500` after the `raise` is dead code), and the connection loop lets it
propagate, killing the manager process.  This theorem evaluates the
code at the failing input: the store is unchanged and the exception
escapes both `scale_down` and the dispatch step. -/
theorem scaleDown_unknown_id_raises :
    scale_down [("port", "9000")] emptyMgr =
      (emptyMgr, .error (.keyError "9000")) ∧
    handleStep noLoader quietC quietC false "D" [("port", "9000")] connEmpty =
      (connEmpty, .raised (.keyError "9000")) :=
  ⟨rfl, rfl⟩

/-- Claim C2: whenever the connection loop actually encodes and sends
a response for a Scale Down command, that response carries status 200
and message `"DONE"` (and no follow-up `RuntimeError`), regardless of
the internal outcome of `scale_down` — the dispatch loop overwrites
the real result with `code, result = 200, 'DONE'` before encoding. -/
theorem scaleDown_response_is_200_done (loader : LoadFn)
    (outC errC : Nat → String) (b : Bool) (msg : Req) (st st' : ConnState)
    (code : Nat) (m : String) (te : Option PyErr)
    (h : handleStep loader outC errC b "D" msg st = (st', .response code m te)) :
    code = 200 ∧ m = "DONE" ∧ te = none := by
  cases b with
  | true => simp [handleStep] at h
  | false =>
    rcases hsd : scale_down msg st.mgr with ⟨m2, res⟩
    cases res with
    | error e => simp [handleStep, hsd] at h
    | ok rc =>
      simp [handleStep, hsd] at h
      exact ⟨h.2.1.symm, h.2.2.1.symm, h.2.2.2.symm⟩

/-- Witness for C2: a concrete successful Scale Down dispatch. -/
theorem scaleDown_response_is_200_done_witness :
    handleStep noLoader quietC quietC false "D" [("port", "9000")] conn9000 =
      ({ conn9000 with mgr := { mgr9000 with terminated := [5] } },
        .response 200 "DONE" none) ∧
    (200 = 200 ∧ "DONE" = "DONE" ∧ (none : Option PyErr) = none) :=
  ⟨rfl, scaleDown_response_is_200_done noLoader quietC quietC false
    [("port", "9000")] conn9000 _ 200 "DONE" none rfl⟩

/-- Counterexample to claim C3: a Scale Down on an id present in the
store returns `("scaled down", 200)` but does **not** remove the
record — it is still found by a lookup afterwards. -/
theorem scaleDown_keeps_record_counterexample :
    (scale_down [("port", "9000")] mgr9000).2 = .ok ("scaled down", 200) ∧
    List.lookup "9000" (scale_down [("port", "9000")] mgr9000).1.workers =
      some ⟨5, "/tmp/f"⟩ :=
  ⟨rfl, rfl⟩

/-- Claim C3 (amended): a Scale Down whose identifier is present in
the Worker Record Store requests termination of the owned process
handle and returns `("scaled down", 200)`, but the record is **not**
removed — the store is left unchanged. -/
theorem scaleDown_terminates_but_keeps_record (req : Req) (s : MgrState)
    (port : String) (rec : WorkerRecord)
    (hp : pyGet req "port" = .ok port)
    (hw : List.lookup port s.workers = some rec) :
    scale_down req s =
      ({ s with terminated := s.terminated ++ [rec.worker] },
        .ok ("scaled down", 200)) ∧
    (scale_down req s).1.workers = s.workers := by
  constructor
  · simp [scale_down, scale_down_body, hp, hw]
  · simp [scale_down, scale_down_body, hp, hw]

/-- Witness for C3 (amended): Scale Down of the registered id
`"9000"` terminates pid 5 and keeps the record. -/
theorem scaleDown_terminates_but_keeps_record_witness :
    pyGet [("port", "9000")] "port" = .ok "9000" ∧
    List.lookup "9000" mgr9000.workers = some ⟨5, "/tmp/f"⟩ ∧
    scale_down [("port", "9000")] mgr9000 =
      ({ mgr9000 with terminated := [5] }, .ok ("scaled down", 200)) :=
  ⟨rfl, rfl,
    (scaleDown_terminates_but_keeps_record [("port", "9000")] mgr9000
      "9000" ⟨5, "/tmp/f"⟩ rfl rfl).1⟩

/-- Counterexample to claim C6: a well-formed Load command (all fields
present) whose model-loading step raises a generic (non-memory)
exception lets that exception escape `load_model` into the Connection
Loop — `load_model` catches only `MemoryError`. -/
theorem loadModel_exception_escapes_counterexample :
    load_model boomLoader loadReq = .error (.exn "boom") := rfl

/-- Claim C6 (amended): only Scale Up converts every internal
exception into a `(message, code)` pair.  Load converts only
`MemoryError` (into `("System out of memory", 507)`) and re-raises
everything else, and Scale Down re-raises every exception of its body
after logging, so those escape into the Connection Loop. -/
theorem exception_policy_per_operation :
    (∀ (outC errC : Nat → String) (req : Req) (s s' : MgrState) (e : PyErr),
      scale_up_body outC errC req s = (s', .error e) →
      scale_up outC errC req s = (s', ("scale up failed", 500))) ∧
    (∀ (loader : LoadFn) (req : Req),
      load_model_try loader req = .error .memoryError →
      load_model loader req = .ok (none, none, "System out of memory", 507)) ∧
    (∀ (loader : LoadFn) (req : Req) (e : PyErr), e ≠ .memoryError →
      load_model_try loader req = .error e →
      load_model loader req = .error e) ∧
    (∀ (req : Req) (s s' : MgrState) (e : PyErr),
      scale_down_body req s = (s', .error e) →
      scale_down req s = (s', .error e)) := by
  refine ⟨?_, ?_, ?_, ?_⟩
  · intro outC errC req s s' e h
    simp [scale_up, h]
  · intro loader req h
    simp [load_model, h]
  · intro loader req e hne h
    simp only [load_model, h]
    cases e with
    | memoryError => exact absurd rfl hne
    | keyError k => rfl
    | valueError m => rfl
    | runtimeError m => rfl
    | exn m => rfl
  · intro req s s' e h
    simp [scale_down, h]

/-- Witness for C6 (amended): concrete instances of all four
conversion behaviours. -/
theorem exception_policy_per_operation_witness :
    scale_up_body quietC quietC [] emptyMgr =
      (emptyMgr, .error (.keyError "sock_name")) ∧
    scale_up quietC quietC [] emptyMgr =
      (emptyMgr, ("scale up failed", 500)) ∧
    load_model_try oomLoader loadReq = .error .memoryError ∧
    load_model oomLoader loadReq =
      .ok (none, none, "System out of memory", 507) ∧
    load_model_try boomLoader loadReq = .error (.exn "boom") ∧
    load_model boomLoader loadReq = .error (.exn "boom") ∧
    scale_down_body [("port", "9001")] mgr9000 =
      (mgr9000, .error (.keyError "9001")) ∧
    scale_down [("port", "9001")] mgr9000 =
      (mgr9000, .error (.keyError "9001")) :=
  ⟨rfl,
    exception_policy_per_operation.1 quietC quietC [] emptyMgr emptyMgr
      (.keyError "sock_name") rfl,
    rfl,
    exception_policy_per_operation.2.1 oomLoader loadReq rfl,
    rfl,
    exception_policy_per_operation.2.2.1 boomLoader loadReq (.exn "boom")
      (by decide) rfl,
    rfl,
    exception_policy_per_operation.2.2.2 [("port", "9001")] mgr9000 mgr9000
      (.keyError "9001") rfl⟩

/-- Claim C7: with the benchmark flag disabled (its value in a normal
run), a decoded command whose tag is outside {`L`, `U`, `D`} makes the
connection loop raise a `ValueError`; it never silently succeeds. -/
theorem unknown_command_raises (loader : LoadFn) (outC errC : Nat → String)
    (cmd : String) (msg : Req) (st : ConnState)
    (hL : cmd ≠ "L") (hU : cmd ≠ "U") (hD : cmd ≠ "D") :
    handleStep loader outC errC false cmd msg st =
      (st, .raised (.valueError ("Received unknown command: " ++ cmd))) := by
  simp [handleStep, hL, hU, hD]

/-- Witness for C7: the unrecognized tag `"X"`. -/
theorem unknown_command_raises_witness :
    ("X" ≠ "L" ∧ "X" ≠ "U" ∧ "X" ≠ "D") ∧
    handleStep noLoader quietC quietC false "X" [] connEmpty =
      (connEmpty, .raised (.valueError "Received unknown command: X")) :=
  ⟨⟨by decide, by decide, by decide⟩,
    unknown_command_raises noLoader quietC quietC "X" [] connEmpty
      (by decide) (by decide) (by decide)⟩

/-- Claim C10: with the benchmark/profiling flag enabled, one
iteration of the connection loop skips dispatch entirely: whatever the
decoded tag, no operation runs, no response is sent, no error is
raised, and the state is untouched. -/
theorem benchmark_skips_dispatch (loader : LoadFn) (outC errC : Nat → String)
    (cmd : String) (msg : Req) (st : ConnState) :
    handleStep loader outC errC true cmd msg st = (st, .skipped) := rfl

/-- Claim C4: the Readiness Prober makes at most 10 polling attempts;
it stops successfully exactly at the first attempt at which either
synchronization file contains the sentinel; and when all 10 attempts
pass without the sentinel it signals failure, so that `scale_up`
returns `("scale up failed", 500)` instead of hanging. -/
theorem readiness_prober_bound :
    (∀ (outC errC : Nat → String), (probeLoop outC errC 0 10).2 ≤ 10) ∧
    (∀ (outC errC : Nat → String) (j : Nat), j < 10 →
      (hasSentinel (outC j) = true ∨ hasSentinel (errC j) = true) →
      (∀ i, i < j → hasSentinel (outC i) = false ∧
        hasSentinel (errC i) = false) →
      (probeLoop outC errC 0 10).1 ≠ 0 ∧
        (probeLoop outC errC 0 10).2 = j + 1) ∧
    (∀ (outC errC : Nat → String) (req : Req) (s : MgrState)
      (sn st h p f : String),
      decodeScaleUp req = .ok (sn, st, h, p, f) →
      (∀ i, i < 10 → hasSentinel (outC i) = false ∧
        hasSentinel (errC i) = false) →
      (scale_up outC errC req s).2 = ("scale up failed", 500)) := by
  refine ⟨?_, ?_, ?_⟩
  · intro outC errC
    exact probeLoop_attempts_le outC errC 10 0
  · intro outC errC j hj hhit hb
    have := probeLoop_first_hit outC errC 10 j 0 hj
      (by simpa using hhit) (by simpa using hb)
    simpa using this
  · intro outC errC req s sn st h p f hdec hfail
    have hall : probeLoop outC errC 0 10 = (0, 10) :=
      probeLoop_all_fail outC errC 10 0 (by simpa using hfail)
    simp [scale_up, scale_up_body, hdec, hall]

/-- Witness for C4: the bound on silent files, the immediate hit, and
the concrete timed-out Scale Up. -/
theorem readiness_prober_bound_witness :
    (probeLoop quietC quietC 0 10).2 ≤ 10 ∧
    ((probeLoop readyC readyC 0 10).1 ≠ 0 ∧
      (probeLoop readyC readyC 0 10).2 = 0 + 1) ∧
    (scale_up quietC quietC upReq emptyMgr).2 = ("scale up failed", 500) :=
  ⟨readiness_prober_bound.1 quietC quietC,
    readiness_prober_bound.2.1 readyC readyC 0 (by decide)
      (Or.inl rfl) (fun i hi => absurd hi (Nat.not_lt_zero i)),
    readiness_prober_bound.2.2 quietC quietC upReq emptyMgr
      "" "tcp" "127.0.0.1" "9000" "/tmp/fifo" rfl
      (fun _ _ => ⟨rfl, rfl⟩)⟩

/-- Claim C9: a Scale Up that fails by readiness timeout (the only
failure possible after the worker process is spawned) returns
`("scale up failed", 500)` but rolls nothing back: the spawned pid is
recorded as started and never terminated, and the `WorkerRecord`
registered under the socket name (or the port when the socket name is
falsy) is still in the Worker Record Store afterwards. -/
theorem scaleUp_failure_no_rollback (outC errC : Nat → String)
    (req : Req) (s : MgrState) (sn st h p f : String)
    (hdec : decodeScaleUp req = .ok (sn, st, h, p, f))
    (hfail : ∀ i, i < 10 → hasSentinel (outC i) = false ∧
      hasSentinel (errC i) = false)
    (hfresh : ∀ q ∈ s.terminated, q < s.nextPid) :
    (scale_up outC errC req s).2 = ("scale up failed", 500) ∧
    List.lookup (if sn ≠ "" then sn else p)
      (scale_up outC errC req s).1.workers = some ⟨s.nextPid, f⟩ ∧
    s.nextPid ∈ (scale_up outC errC req s).1.spawned ∧
    s.nextPid ∉ (scale_up outC errC req s).1.terminated := by
  have hall : probeLoop outC errC 0 10 = (0, 10) :=
    probeLoop_all_fail outC errC 10 0 (by simpa using hfail)
  refine ⟨?_, ?_, ?_, ?_⟩
  · simp [scale_up, scale_up_body, hdec, hall]
  · simp [scale_up, scale_up_body, hdec, hall, lookup_dictSet_self]
  · simp [scale_up, scale_up_body, hdec, hall]
  · simp [scale_up, scale_up_body, hdec, hall]
    intro hmem
    exact absurd (hfresh _ hmem) (lt_irrefl _)

/-- Witness for C9: the concrete timed-out Scale Up on the empty
store. -/
theorem scaleUp_failure_no_rollback_witness :
    (scale_up quietC quietC upReq emptyMgr).2 = ("scale up failed", 500) ∧
    List.lookup "9000" (scale_up quietC quietC upReq emptyMgr).1.workers =
      some ⟨0, "/tmp/fifo"⟩ ∧
    0 ∈ (scale_up quietC quietC upReq emptyMgr).1.spawned ∧
    0 ∉ (scale_up quietC quietC upReq emptyMgr).1.terminated := by
  have hw := scaleUp_failure_no_rollback quietC quietC upReq emptyMgr
    "" "tcp" "127.0.0.1" "9000" "/tmp/fifo" rfl
    (fun _ _ => ⟨rfl, rfl⟩) (fun q hq => absurd hq (by simp [emptyMgr]))
  simpa [emptyMgr] using hw

lemma pyGet_absent {req : Req} {k : String} (h : hasKey req k = false) :
    pyGet req k = .error (.keyError k) := by
  cases hl : List.lookup k req with
  | none => simp [pyGet, hl]
  | some v => simp [hasKey, hl] at h

lemma getOptInt_absent {req : Req} {k : String} (h : hasKey req k = false) :
    getOptInt req k = .ok none := by
  simp [getOptInt, h, pure, Except.pure]

/-- Claim C5: the three outcomes of `load_model` on a valid request.
With an eager manifest (one declaring `modelFile`) it returns the
materialized service, no construction parameters, the message
`"loaded model {name}"` and code 200; with a scripted manifest it
returns no service together with the parameter tuple
`(name, path, handler, gpu, batchSize)`, the same message and code
200; and when loading runs out of memory it returns
`(None, None, "System out of memory", 507)`. -/
theorem loadModel_branches :
    (∀ (loader : LoadFn) (req : Req) (path name hraw : String)
      (b g : Option Int) (svc svc2 : Service),
      pyGet req "modelPath" = .ok path →
      pyGet req "modelName" = .ok name →
      pyGet req "handler" = .ok hraw →
      getOptInt req "batchSize" = .ok b →
      getOptInt req "gpu" = .ok g →
      loader name path (if hraw ≠ "" then some hraw else none) g b false =
        .ok svc →
      computeIsEager svc = .ok true →
      loader name path (if hraw ≠ "" then some hraw else none) g b true =
        .ok svc2 →
      load_model loader req =
        .ok (some svc2, none, "loaded model " ++ name, 200)) ∧
    (∀ (loader : LoadFn) (req : Req) (path name hraw : String)
      (b g : Option Int) (svc : Service),
      pyGet req "modelPath" = .ok path →
      pyGet req "modelName" = .ok name →
      pyGet req "handler" = .ok hraw →
      getOptInt req "batchSize" = .ok b →
      getOptInt req "gpu" = .ok g →
      loader name path (if hraw ≠ "" then some hraw else none) g b false =
        .ok svc →
      computeIsEager svc = .ok false →
      load_model loader req =
        .ok (none, some (name, path, (if hraw ≠ "" then some hraw else none),
          g, b), "loaded model " ++ name, 200)) ∧
    (∀ (loader : LoadFn) (req : Req) (path name hraw : String)
      (b g : Option Int),
      pyGet req "modelPath" = .ok path →
      pyGet req "modelName" = .ok name →
      pyGet req "handler" = .ok hraw →
      getOptInt req "batchSize" = .ok b →
      getOptInt req "gpu" = .ok g →
      loader name path (if hraw ≠ "" then some hraw else none) g b false =
        .error .memoryError →
      load_model loader req =
        .ok (none, none, "System out of memory", 507)) := by
  refine ⟨?_, ?_, ?_⟩
  · intro loader req path name hraw b g svc svc2 hp hn hh hb hg hl he hl2
    simp only [ne_eq, ite_not] at hl hl2
    simp [load_model, load_model_try, hp, hn, hh, hb, hg, hl, he, hl2,
      Bind.bind, Except.bind, Functor.map, Except.map, pure, Except.pure]
  · intro loader req path name hraw b g svc hp hn hh hb hg hl he
    simp only [ne_eq, ite_not] at hl
    simp [load_model, load_model_try, hp, hn, hh, hb, hg, hl, he,
      Bind.bind, Except.bind, Functor.map, Except.map, pure, Except.pure]
  · intro loader req path name hraw b g hp hn hh hb hg hl
    simp only [ne_eq, ite_not] at hl
    simp [load_model, load_model_try, hp, hn, hh, hb, hg, hl,
      Bind.bind, Except.bind, Functor.map, Except.map, pure, Except.pure]

/-- Witness for C5: the three branches at concrete loaders and the
concrete request `loadReq`. -/
theorem loadModel_branches_witness :
    load_model eagerLoader loadReq =
      .ok (some ⟨⟨some ⟨some ["modelFile"]⟩⟩⟩, none,
        "loaded model mnist", 200) ∧
    load_model scriptedLoader loadReq =
      .ok (none, some ("mnist", "/models/m", none, none, none),
        "loaded model mnist", 200) ∧
    load_model oomLoader loadReq =
      .ok (none, none, "System out of memory", 507) :=
  ⟨loadModel_branches.1 eagerLoader loadReq "/models/m" "mnist" ""
      none none ⟨⟨some ⟨some ["modelFile"]⟩⟩⟩ ⟨⟨some ⟨some ["modelFile"]⟩⟩⟩
      rfl rfl rfl rfl rfl rfl rfl rfl,
    loadModel_branches.2.1 scriptedLoader loadReq "/models/m" "mnist" ""
      none none ⟨⟨none⟩⟩ rfl rfl rfl rfl rfl rfl rfl,
    loadModel_branches.2.2 oomLoader loadReq "/models/m" "mnist" ""
      none none rfl rfl rfl rfl rfl rfl⟩

/-- Counterexample to claim C8: a Load request in which the optional
handler field is absent makes `load_model` raise `KeyError` instead of
treating the handler as `None`. -/
theorem absent_handler_raises_counterexample :
    load_model scriptedLoader [("modelPath", "/m"), ("modelName", "mm")] =
      .error (.keyError "handler") := rfl

/-- Claim C8 (amended): the optional gpu and batch-size fields may be
absent and are then treated as `None`, and a present-but-falsy handler
value is treated as `None`; the handler key itself, however, must be
present — when it is absent `load_model` raises `KeyError` rather than
defaulting it. -/
theorem loadModel_optional_fields :
    (∀ (loader : LoadFn) (req : Req) (path name hraw : String)
      (svc : Service),
      pyGet req "modelPath" = .ok path →
      pyGet req "modelName" = .ok name →
      pyGet req "handler" = .ok hraw →
      hasKey req "batchSize" = false →
      hasKey req "gpu" = false →
      loader name path (if hraw ≠ "" then some hraw else none)
        none none false = .ok svc →
      computeIsEager svc = .ok false →
      load_model loader req =
        .ok (none, some (name, path,
          (if hraw ≠ "" then some hraw else none), none, none),
          "loaded model " ++ name, 200)) ∧
    (∀ (loader : LoadFn) (req : Req) (path name : String),
      pyGet req "modelPath" = .ok path →
      pyGet req "modelName" = .ok name →
      hasKey req "handler" = false →
      load_model loader req = .error (.keyError "handler")) := by
  constructor
  · intro loader req path name hraw svc hp hn hh hb hg hl he
    exact loadModel_branches.2.1 loader req path name hraw none none svc
      hp hn hh (getOptInt_absent hb) (getOptInt_absent hg) hl he
  · intro loader req path name hp hn hh
    simp [load_model, load_model_try, hp, hn, pyGet_absent hh,
      Bind.bind, Except.bind, Functor.map, Except.map, pure, Except.pure]

/-- Witness for C8 (amended): `loadReq` has no gpu or batch-size
field and an empty handler value; a request without the handler key
raises. -/
theorem loadModel_optional_fields_witness :
    (hasKey loadReq "batchSize" = false ∧ hasKey loadReq "gpu" = false) ∧
    load_model scriptedLoader loadReq =
      .ok (none, some ("mnist", "/models/m", none, none, none),
        "loaded model mnist", 200) ∧
    load_model noLoader [("modelPath", "/m"), ("modelName", "mm")] =
      .error (.keyError "handler") :=
  ⟨⟨rfl, rfl⟩,
    loadModel_optional_fields.1 scriptedLoader loadReq "/models/m" "mnist"
      "" ⟨⟨none⟩⟩ rfl rfl rfl rfl rfl rfl rfl,
    loadModel_optional_fields.2 noLoader
      [("modelPath", "/m"), ("modelName", "mm")] "/m" "mm" rfl rfl rfl⟩
